import Mathlib

/-!
Verification of the deduplication engine of lanraragi-satellite.

The definitions below are a shallow embedding of `src/satellite/service/nhdd.py`
(similarity algorithm, retention rubric, subarchive-map materialisation,
embedding-ingestion resumability) and of the expired-task query of
`src/satellite_server/service/database.py`.  Python floats are idealised as
real numbers; database tables are lists of rows in physical order, and SQL
queries that carry no ORDER BY are modelled as scans in that physical order
(one possible execution).  All stateful methods become pure state-passing
functions.
-/

set_option maxHeartbeats 1000000

/-- A page embedding: numpy arrays of floats become lists of reals. -/
abbrev Vec := List ℝ

/-- numpy.dot on two equal-length vectors (zipWith truncates; all call sites
use equal dimensions). -/
noncomputable def np_dot (e1 e2 : Vec) : ℝ :=
  (List.zipWith (fun a b => a * b) e1 e2).sum

/-- numpy.linalg.norm: the Euclidean norm. -/
noncomputable def np_norm (v : Vec) : ℝ :=
  Real.sqrt (np_dot v v)

/-- cosine_similarity (nhdd.py:32-36): dot / (norm * norm). -/
noncomputable def cosine_similarity (embedding_1 embedding_2 : Vec) : ℝ :=
  np_dot embedding_1 embedding_2 / (np_norm embedding_1 * np_norm embedding_2)

/-- The pgvector cosine-distance operator: 1 - cosine similarity. -/
noncomputable def cosine_distance (e1 e2 : Vec) : ℝ :=
  1 - cosine_similarity e1 e2

/-- Loop body of is_subsequence (nhdd.py:55-69).  `i` is the index into the
target list, `offset` the extra advance into the source list.  The `gas`
counter makes the recursion structural: every recursive call increases
`i + offset` by one, and the loop exits with (False, False) as soon as
`i + offset` reaches the source length (once the inner while-guard fails the
remaining for-iterations of the Python loop do nothing and fall through to
the final return).  Called with `gas = s.length` and `i = offset = 0`, so
`gas = 0` coincides exactly with the while-guard being exhausted. -/
noncomputable def isSubseqGo (τ : ℝ) (t s : List Vec) : ℕ → ℕ → ℕ → Bool × Bool
  | 0, _, _ => (false, false)
  | gas + 1, i, offset =>
    if i + offset < s.length then
      if i < t.length then
        if cosine_similarity (t.getD i []) (s.getD (i + offset) []) > τ then
          if i = t.length - 1 then (true, decide (t.length ≠ s.length))
          else isSubseqGo τ t s gas (i + 1) offset
        else isSubseqGo τ t s gas i (offset + 1)
      else (false, false)
    else (false, false)

/-- is_subsequence (nhdd.py:42-69): returns (is_subsequence, is_proper).
The default threshold at every call site is 0.95. -/
noncomputable def is_subsequence (embeddings_1 embeddings_2 : List Vec)
    (min_similarity : ℝ) : Bool × Bool :=
  if embeddings_1.length > embeddings_2.length then (false, false)
  else isSubseqGo min_similarity embeddings_1 embeddings_2 embeddings_2.length 0 0

theorem isSubseqGo_snd_eq_true {τ : ℝ} {t s : List Vec} :
    ∀ gas i offset, (isSubseqGo τ t s gas i offset).2 = true → t.length ≠ s.length := by
  intro gas
  induction gas with
  | zero => intro i offset h; simp [isSubseqGo] at h
  | succ g ih =>
    intro i offset h
    rw [isSubseqGo] at h
    split at h
    · split at h
      · split at h
        · split at h
          · simpa using h
          · exact ih _ _ h
        · exact ih _ _ h
      · simp at h
    · simp at h

theorem is_subsequence_snd_length_lt {e1 e2 : List Vec} {τ : ℝ}
    (h : (is_subsequence e1 e2 τ).2 = true) : e1.length < e2.length := by
  rw [is_subsequence] at h
  split at h
  · simp at h
  · have hne := isSubseqGo_snd_eq_true _ _ _ h
    omega

theorem cosine_similarity_self {v : Vec} (h : 0 < np_dot v v) :
    cosine_similarity v v = 1 := by
  rw [cosine_similarity, np_norm, Real.mul_self_sqrt h.le, div_self h.ne']

/-- Orthogonal vectors have cosine similarity 0, whatever their norms. -/
theorem cosine_similarity_orth {v w : Vec} (h : np_dot v w = 0) :
    cosine_similarity v w = 0 := by
  rw [cosine_similarity, h, zero_div]

theorem isSubseqGo_diag {τ : ℝ} {A : List Vec}
    (hv : ∀ v ∈ A, cosine_similarity v v > τ) :
    ∀ gas i, i < A.length → gas + i = A.length →
      isSubseqGo τ A A gas i 0 = (true, false) := by
  intro gas
  induction gas with
  | zero => intro i h1 h2; omega
  | succ g ih =>
    intro i h1 h2
    rw [isSubseqGo]
    simp only [Nat.add_zero]
    rw [if_pos h1, if_pos h1]
    have hmem : A.getD i [] ∈ A := by
      rw [List.getD_eq_getElem A [] h1]
      exact List.getElem_mem h1
    rw [if_pos (hv _ hmem)]
    by_cases hlast : i = A.length - 1
    · rw [if_pos hlast]; simp
    · rw [if_neg hlast]
      exact ih (i + 1) (by omega) (by omega)

/-- C7: antisymmetry of the proper-subsequence flag.  If `is_subsequence`
reports target as a proper subsequence of source, the reversed call never
reports proper: the proper flag forces a strictly shorter target, and the
reversed call fails its length guard immediately. -/
theorem C7_is_proper_antisymmetric (embeddings_1 embeddings_2 : List Vec) (τ : ℝ)
    (h : (is_subsequence embeddings_1 embeddings_2 τ).2 = true) :
    (is_subsequence embeddings_2 embeddings_1 τ).2 = false := by
  have hlt := is_subsequence_snd_length_lt h
  rw [is_subsequence, if_pos hlt]

/-- C7 witness: a one-page archive is a proper subsequence of a two-page
archive with an identical page, and the reversed call is not proper. -/
theorem C7_witness :
    (is_subsequence [[(1:ℝ)]] [[(1:ℝ)], [(1:ℝ)]] (1/2)).2 = true ∧
    (is_subsequence [[(1:ℝ)], [(1:ℝ)]] [[(1:ℝ)]] (1/2)).2 = false := by
  have hd : np_dot [(1:ℝ)] [(1:ℝ)] = 1 := by simp [np_dot]
  have hc : cosine_similarity [(1:ℝ)] [(1:ℝ)] = 1 :=
    cosine_similarity_self (by rw [hd]; norm_num)
  have h : (is_subsequence [[(1:ℝ)]] [[(1:ℝ)], [(1:ℝ)]] (1/2)).2 = true := by
    rw [is_subsequence]
    norm_num [isSubseqGo, hc]
  exact ⟨h, C7_is_proper_antisymmetric _ _ _ h⟩

/-- C6 (corrected): reflexivity of `is_subsequence` holds for a nonempty
embedding list whose vectors all have positive self dot product, at any
threshold strictly below 1: the diagonal comparisons all yield cosine 1 > τ,
so the call returns (true, false). -/
theorem C6_subsequence_reflexive (A : List Vec) (τ : ℝ) (hne : A ≠ [])
    (hτ : τ < 1) (hv : ∀ v ∈ A, 0 < np_dot v v) :
    is_subsequence A A τ = (true, false) := by
  have hcos : ∀ v ∈ A, cosine_similarity v v > τ := fun v hvmem => by
    rw [cosine_similarity_self (hv v hvmem)]; exact hτ
  rw [is_subsequence, if_neg (lt_irrefl _)]
  exact isSubseqGo_diag hcos A.length 0 (List.length_pos.mpr hne) (by omega)

/-- C6 counterexample: at the empty embedding list and threshold τ = 1 (which
satisfies the claim's τ ≤ 1), `is_subsequence` returns (false, false), not
(true, false): the Python loop body never runs and falls through to the final
return, and at τ = 1 the strict comparison `cos > τ` can never accept. -/
theorem C6_counterexample :
    ((1:ℝ) ≤ 1) ∧ is_subsequence ([] : List Vec) [] 1 = (false, false) :=
  ⟨le_refl 1, rfl⟩

/-- C6 witness: the singleton archive with page embedding [1] at τ = 1/2. -/
theorem C6_witness :
    ([[(1:ℝ)]] ≠ ([] : List Vec)) ∧ ((1:ℝ)/2 < 1) ∧
    is_subsequence [[(1:ℝ)]] [[(1:ℝ)]] (1/2) = (true, false) := by
  refine ⟨by simp, by norm_num, ?_⟩
  exact C6_subsequence_reflexive [[(1:ℝ)]] (1/2) (by simp) (by norm_num)
    (fun v hvmem => by simp at hvmem; subst hvmem; norm_num [np_dot])

/-! Data model of the Postgres vector store (nhdd.py:248-307).  Tables are
lists of rows in physical order; every insert of the service is
INSERT ... ON CONFLICT DO NOTHING, modelled as append-if-key-absent. -/

inductive ArchiveEmbeddingJobStatus
  | SUCCESS
  | FAILED
  | PENDING
  | NOT_FOUND
  | SKIPPED
deriving DecidableEq

inductive NhArchiveLanguage
  | ENGLISH
  | JAPANESE
  | CHINESE
  | OTHER
  | NO_TRANSLATE
deriving DecidableEq

/-- Iteration order of `for language in NhArchiveLanguage` (definition order). -/
def nh_archive_language_list : List NhArchiveLanguage :=
  [NhArchiveLanguage.ENGLISH, NhArchiveLanguage.JAPANESE, NhArchiveLanguage.CHINESE,
   NhArchiveLanguage.OTHER, NhArchiveLanguage.NO_TRANSLATE]

/-- A row of archive_embedding_job (archive_id PRIMARY KEY, pages, status, message).
The last_updated timestamp plays no role in the verified behaviour and is omitted. -/
structure AejRow where
  archive_id : String
  pages : ℕ
  status : ArchiveEmbeddingJobStatus
  message : Option String

/-- A row of page (archive_id, page_no, embedding), UNIQUE (archive_id, page_no). -/
structure PageRow where
  archive_id : String
  page_no : ℕ
  embedding : Vec

/-- A row of nhentai_archive (archive_id PRIMARY KEY, nhentai_id, favorites,
language); favorites is -1 when unknown. -/
structure NhRow where
  archive_id : String
  nhentai_id : ℤ
  favorites : ℤ
  language : NhArchiveLanguage

/-- The vector-database state: the four tables used by the deduplication engine. -/
structure DBState where
  aej : List AejRow
  pages : List PageRow
  subarchive_map : List (String × String)
  nhentai : List NhRow

def DBState.withMap (st : DBState) (m : List (String × String)) : DBState :=
  ⟨st.aej, st.pages, m, st.nhentai⟩

def DBState.withPages (st : DBState) (p : List PageRow) : DBState :=
  ⟨st.aej, p, st.subarchive_map, st.nhentai⟩

def DBState.withAej (st : DBState) (a : List AejRow) : DBState :=
  ⟨a, st.pages, st.subarchive_map, st.nhentai⟩

/-! CRUD on subarchive_map (nhdd.py:575-659). -/

/-- get_proper_subarchive (nhdd.py:575-580): the row keyed by archive_id. -/
def get_proper_subarchive (m : List (String × String)) (archive_id : String) :
    Option (String × String) :=
  m.find? (fun r => r.1 == archive_id)

/-- insert_subarchive_map (nhdd.py:632-639): INSERT ON CONFLICT (archive_id)
DO NOTHING; an existing row for the key is left untouched. -/
def insert_subarchive_map (m : List (String × String)) (archive_id leq : String) :
    List (String × String) :=
  if (get_proper_subarchive m archive_id).isSome then m else m ++ [(archive_id, leq)]

/-- get_subarchive_map_children_by_archive_id (nhdd.py:617-623): depth-1
children, i.e. keys whose leq is archive_id, excluding the self row. -/
def get_subarchive_map_children_by_archive_id (m : List (String × String))
    (archive_id : String) : List String :=
  (m.filter (fun r => r.2 == archive_id && r.1 != archive_id)).map (fun r => r.1)

/-- get_duplicate_archives (nhdd.py:625-630): every non-self-pointing key. -/
def get_duplicate_archives (m : List (String × String)) : List String :=
  (m.filter (fun r => r.1 != r.2)).map (fun r => r.1)

/-- Re-pointing step of compute_subarchives (nhdd.py:1397-1402): when the
current maximum dominates `dominated`, insert (dominated, curr_max) and then
(c, curr_max) for every depth-1 child c of `dominated`; children are read
after the first insert, as in the source. -/
def repoint_to_max (m : List (String × String)) (dominated curr_max : String) :
    List (String × String) :=
  let m1 := insert_subarchive_map m dominated curr_max
  (get_subarchive_map_children_by_archive_id m1 dominated).foldl
    (fun acc c => insert_subarchive_map acc c curr_max) m1

/-! CRUD on page (nhdd.py:464-569). -/

/-- get_page (nhdd.py:464-470): row keyed by (archive_id, page_no). -/
def get_page (pages : List PageRow) (archive_id : String) (page_no : ℕ) :
    Option PageRow :=
  pages.find? (fun p => p.archive_id == archive_id && p.page_no == page_no)

/-- get_count_pages_by_archive_id (nhdd.py:481-486). -/
def get_count_pages_by_archive_id (pages : List PageRow) (archive_id : String) : ℕ :=
  (pages.filter (fun p => p.archive_id == archive_id)).length

/-- get_embeddings_by_archive_id (nhdd.py:488-495): embeddings of the archive
ordered by page_no ascending. -/
def get_embeddings_by_archive_id (pages : List PageRow) (archive_id : String) :
    List Vec :=
  (List.insertionSort (fun p q => p.page_no ≤ q.page_no)
    (pages.filter (fun p => p.archive_id == archive_id))).map (fun p => p.embedding)

/-- insert_page (nhdd.py:543-552): INSERT ON CONFLICT (archive_id, page_no)
DO NOTHING. -/
def insert_page (pages : List PageRow) (archive_id : String) (page_no : ℕ)
    (embedding : Vec) : List PageRow :=
  if (get_page pages archive_id page_no).isSome then pages
  else pages ++ [⟨archive_id, page_no, embedding⟩]

/-- insert_pages (nhdd.py:554-565): executemany of insert_page. -/
def insert_pages (pages : List PageRow) (page_items : List (String × ℕ × Vec)) :
    List PageRow :=
  page_items.foldl (fun acc it => insert_page acc it.1 it.2.1 it.2.2) pages

/-- delete_page_by_archive_id (nhdd.py:567-569). -/
def delete_page_by_archive_id (pages : List PageRow) (archive_id : String) :
    List PageRow :=
  pages.filter (fun p => p.archive_id != archive_id)

/-! CRUD on nhentai_archive (nhdd.py:664-740). -/

/-- get_nhentai_archive_favorites (nhdd.py:664-669): favorites of the row, or
0 when the archive has no row. -/
def get_nhentai_archive_favorites (nh : List NhRow) (archive_id : String) : ℤ :=
  match nh.find? (fun r => r.archive_id == archive_id) with
  | some r => r.favorites
  | none => 0

/-- insert_nhentai_archive (nhdd.py:719-726): INSERT ON CONFLICT (archive_id)
DO NOTHING. -/
def insert_nhentai_archive (nh : List NhRow) (archive_id : String)
    (nhentai_id : ℤ) (favorites : ℤ) (language : NhArchiveLanguage) : List NhRow :=
  if (nh.find? (fun r => r.archive_id == archive_id)).isSome then nh
  else nh ++ [⟨archive_id, nhentai_id, favorites, language⟩]

/-! CRUD on archive_embedding_job (nhdd.py:350-403). -/

def get_archive_embedding_job (aej : List AejRow) (archive_id : String) :
    Option AejRow :=
  aej.find? (fun j => j.archive_id == archive_id)

/-- insert_archive_embedding_job (nhdd.py:379-386): INSERT ON CONFLICT
(archive_id) DO NOTHING. -/
def insert_archive_embedding_job (aej : List AejRow) (archive_id : String)
    (pages : ℕ) (status : ArchiveEmbeddingJobStatus) (message : Option String) :
    List AejRow :=
  if (get_archive_embedding_job aej archive_id).isSome then aej
  else aej ++ [⟨archive_id, pages, status, message⟩]

/-- insert_archive_embedding_jobs (nhdd.py:388-395): executemany of the same
conflict-do-nothing insert. -/
def insert_archive_embedding_jobs (aej : List AejRow)
    (aej_items : List (String × ℕ × ArchiveEmbeddingJobStatus × Option String)) :
    List AejRow :=
  aej_items.foldl
    (fun acc it => insert_archive_embedding_job acc it.1 it.2.1 it.2.2.1 it.2.2.2) aej

/-- update_archive_embedding_job (nhdd.py:397-403): UPDATE status and message
of the row keyed by archive_id. -/
def update_archive_embedding_job (aej : List AejRow) (archive_id : String)
    (status : ArchiveEmbeddingJobStatus) (message : Option String) : List AejRow :=
  aej.map (fun j => if j.archive_id == archive_id then
    ⟨j.archive_id, j.pages, status, message⟩ else j)

/-! Retention rubric (nhdd.py:152-166, 1240-1323, 1380-1393). -/

/-- Code-point lexicographic comparison of character lists: the order Python
uses on str, needed by the sorted()-based tiebreaker. -/
def chars_lt : List Char → List Char → Bool
  | _, [] => false
  | [], _ :: _ => true
  | a :: as, b :: bs =>
    if a < b then true else if b < a then false else chars_lt as bs

def string_lt (s t : String) : Bool :=
  chars_lt s.data t.data

theorem chars_lt_irrefl : ∀ l : List Char, chars_lt l l = false := by
  intro l
  induction l with
  | nil => rfl
  | cons a as ih =>
    rw [chars_lt, if_neg (lt_irrefl a), if_neg (lt_irrefl a)]
    exact ih

theorem chars_lt_asymm : ∀ a b : List Char, chars_lt a b = true → chars_lt b a = false := by
  intro a
  induction a with
  | nil =>
    intro b h
    cases b with
    | nil => simp [chars_lt] at h
    | cons x xs => rfl
  | cons x xs ih =>
    intro b h
    cases b with
    | nil => simp [chars_lt] at h
    | cons y ys =>
      rw [chars_lt] at h
      rw [chars_lt]
      by_cases hxy : x < y
      · rw [if_neg (asymm hxy), if_pos hxy]
      · rw [if_neg hxy] at h
        by_cases hyx : y < x
        · rw [if_pos hyx] at h; exact absurd h (by simp)
        · rw [if_neg hyx] at h
          rw [if_neg hyx, if_neg hxy]
          exact ih ys h

theorem chars_lt_conn : ∀ a b : List Char,
    chars_lt a b = false → chars_lt b a = false → a = b := by
  intro a
  induction a with
  | nil =>
    intro b h1 _
    cases b with
    | nil => rfl
    | cons y ys => simp [chars_lt] at h1
  | cons x xs ih =>
    intro b h1 h2
    cases b with
    | nil => simp [chars_lt] at h2
    | cons y ys =>
      rw [chars_lt] at h1 h2
      by_cases hxy : x < y
      · rw [if_pos hxy] at h1; exact absurd h1 (by simp)
      · by_cases hyx : y < x
        · rw [if_pos hyx] at h2; exact absurd h2 (by simp)
        · rw [if_neg hxy, if_neg hyx] at h1
          rw [if_neg hyx, if_neg hxy] at h2
          have hxyeq : x = y := le_antisymm (not_lt.mp hyx) (not_lt.mp hxy)
          rw [hxyeq, ih ys h1 h2]

theorem string_lt_irrefl (s : String) : string_lt s s = false :=
  chars_lt_irrefl s.data

theorem string_lt_asymm {s t : String} (h : string_lt s t = true) :
    string_lt t s = false :=
  chars_lt_asymm s.data t.data h

theorem string_lt_conn {s t : String} (h1 : string_lt s t = false)
    (h2 : string_lt t s = false) : s = t := by
  have hd := chars_lt_conn s.data t.data h1 h2
  cases s; cases t; exact congrArg String.mk hd

/-- Python str.startswith, on the underlying character lists. -/
def starts_with (s pre : String) : Bool :=
  pre.data.isPrefixOf s.data

/-- Characters after the last '/' of a tag: Python tag.split("/")[-1]. -/
def after_last_slash (cs : List Char) : List Char :=
  cs.foldl (fun acc c => if c = '/' then [] else acc ++ [c]) []

/-- Python int() on a digit string; None models the ValueError raised on a
malformed id, a path no verified scenario reaches. -/
def digits_to_nat : List Char → Option ℕ
  | [] => none
  | cs => cs.foldl (fun acc c =>
      match acc with
      | some n => if c.isDigit then some (n * 10 + (c.toNat - 48)) else none
      | none => none) (some 0)

/-- _get_source (nhdd.py:71-78): the trailing numeric id of the first
source:nhentai.net tag, and -1 when no such tag exists. -/
def _get_source (tags : List String) : ℤ :=
  match tags.find? (fun tag => starts_with tag ("source:nhentai.net")) with
  | some tag =>
    match digits_to_nat (after_last_slash tag.data) with
    | some n => (n : ℤ)
    | none => -1
  | none => -1

/-- KeepReasonAndScoreEnum (nhdd.py:152-166). -/
inductive KeepReasonAndScoreEnum
  | IS_IN_STATIC_CATEGORY
  | HAS_HIGHER_FAVORITE_COUNT
  | HAS_DECENSORED_TAG
  | HAS_HIGHER_TAG_COUNT
  | HAS_NO_ROUGH_TRANSLATION
  | HAS_NO_POOR_GRAMMAR
  | IS_MORE_RECENT
  | HAS_READING_PROGRESS
deriving DecidableEq

/-- Scores of the rubric (powers of two, nhdd.py:153-160). -/
def KeepReasonAndScoreEnum.get_score : KeepReasonAndScoreEnum → ℕ
  | .IS_IN_STATIC_CATEGORY => 16
  | .HAS_HIGHER_FAVORITE_COUNT => 8
  | .HAS_DECENSORED_TAG => 4
  | .HAS_HIGHER_TAG_COUNT => 4
  | .HAS_NO_ROUGH_TRANSLATION => 4
  | .HAS_NO_POOR_GRAMMAR => 4
  | .IS_MORE_RECENT => 2
  | .HAS_READING_PROGRESS => 1

/-- Total score of a reason list: sum(x.get_score() for x in reasons). -/
def keep_score (reasons : List KeepReasonAndScoreEnum) : ℕ :=
  (reasons.map KeepReasonAndScoreEnum.get_score).sum

/-- Metadata the service reads from the LRR server for one archive: the
comma-split, stripped tag list (nhdd.py:1263) and the reading progress
(None coerced to 0, nhdd.py:1269-1272). -/
structure LrrArchiveMetadata where
  tags : List String
  progress : ℕ

/-- External inputs of the retention rubric: the LRR metadata of each archive
and the set of arcids sitting in a static category
(load_static_category_archive_ids, nhdd.py:1207-1217). -/
structure DedupEnv where
  metadata : String → LrrArchiveMetadata
  categorized_arcids : List String

/-- get_keep_reasons (nhdd.py:1240-1323): the pair of keep-reason lists for
(archive_id_1, archive_id_2), appended in source order.  Line 1276 of the
source overwrites the favourite count fetched for the second archive with 0
before the comparison, so both favourite tests compare favorites_1 against 0. -/
def get_keep_reasons (env : DedupEnv) (db : DBState)
    (archive_id_1 archive_id_2 : String) :
    List KeepReasonAndScoreEnum × List KeepReasonAndScoreEnum :=
  let tags_1 := (env.metadata archive_id_1).tags
  let tags_2 := (env.metadata archive_id_2).tags
  let num_tags_1 := tags_1.length
  let num_tags_2 := tags_2.length
  let progress_1 := (env.metadata archive_id_1).progress
  let progress_2 := (env.metadata archive_id_2).progress
  let favorites_1 := get_nhentai_archive_favorites db.nhentai archive_id_1
  let favorites_2 : ℤ := 0
  let in_static_category_1 := archive_id_1 ∈ env.categorized_arcids
  let in_static_category_2 := archive_id_2 ∈ env.categorized_arcids
  let has_uncensored_1 := ("uncensored") ∈ tags_1
  let has_uncensored_2 := ("uncensored") ∈ tags_2
  let has_no_rough_translation_1 := ("rough translation") ∉ tags_1
  let has_no_rough_translation_2 := ("rough translation") ∉ tags_2
  let has_no_poor_grammar_1 := ("poor grammar") ∉ tags_1 ∨ ("rough grammar") ∉ tags_1
  let has_no_poor_grammar_2 := ("poor grammar") ∉ tags_2 ∨ ("rough grammar") ∉ tags_2
  let source_id_1 := _get_source tags_1
  let source_id_2 := _get_source tags_2
  let keep_reasons_1 :=
    (if in_static_category_1 then [KeepReasonAndScoreEnum.IS_IN_STATIC_CATEGORY] else [])
    ++ (if favorites_1 > favorites_2 then [KeepReasonAndScoreEnum.HAS_HIGHER_FAVORITE_COUNT] else [])
    ++ (if has_uncensored_1 then [KeepReasonAndScoreEnum.HAS_DECENSORED_TAG] else [])
    ++ (if num_tags_1 > num_tags_2 then [KeepReasonAndScoreEnum.HAS_HIGHER_TAG_COUNT] else [])
    ++ (if source_id_1 > source_id_2 then [KeepReasonAndScoreEnum.IS_MORE_RECENT] else [])
    ++ (if progress_1 > 0 then [KeepReasonAndScoreEnum.HAS_READING_PROGRESS] else [])
    ++ (if has_no_rough_translation_1 then [KeepReasonAndScoreEnum.HAS_NO_ROUGH_TRANSLATION] else [])
    ++ (if has_no_poor_grammar_1 then [KeepReasonAndScoreEnum.HAS_NO_POOR_GRAMMAR] else [])
  let keep_reasons_2 :=
    (if in_static_category_2 then [KeepReasonAndScoreEnum.IS_IN_STATIC_CATEGORY] else [])
    ++ (if favorites_1 < favorites_2 then [KeepReasonAndScoreEnum.HAS_HIGHER_FAVORITE_COUNT] else [])
    ++ (if has_uncensored_2 then [KeepReasonAndScoreEnum.HAS_DECENSORED_TAG] else [])
    ++ (if num_tags_1 < num_tags_2 then [KeepReasonAndScoreEnum.HAS_HIGHER_TAG_COUNT] else [])
    ++ (if source_id_1 < source_id_2 then [KeepReasonAndScoreEnum.IS_MORE_RECENT] else [])
    ++ (if progress_2 > 0 then [KeepReasonAndScoreEnum.HAS_READING_PROGRESS] else [])
    ++ (if has_no_rough_translation_2 then [KeepReasonAndScoreEnum.HAS_NO_ROUGH_TRANSLATION] else [])
    ++ (if has_no_poor_grammar_2 then [KeepReasonAndScoreEnum.HAS_NO_POOR_GRAMMAR] else [])
  (keep_reasons_1, keep_reasons_2)

/-- Retention decision of compute_subarchives on an equal-content pair
(nhdd.py:1380-1393): true exactly when the current maximum is kept.  On equal
scores the source keeps the current maximum iff it is NOT the
lexicographically smallest of the pair (the `pass` branch of line 1390-1391
leaves keep_current False). -/
def rubric_keep_current (env : DedupEnv) (db : DBState)
    (curr_max_arcid other_arcid : String) : Bool :=
  let keep_reasons := get_keep_reasons env db curr_max_arcid other_arcid
  let curr_max_score := keep_score keep_reasons.1
  let other_score := keep_score keep_reasons.2
  if curr_max_score > other_score then true
  else if curr_max_score < other_score then false
  else if curr_max_arcid =
      (if string_lt other_arcid curr_max_arcid then other_arcid else curr_max_arcid)
    then false
    else true

/-- The archive kept by the rubric out of an equal-content pair. -/
def rubric_winner (env : DedupEnv) (db : DBState)
    (curr_max_arcid other_arcid : String) : String :=
  if rubric_keep_current env db curr_max_arcid other_arcid then curr_max_arcid
  else other_arcid

/-- The lexicographically larger of two arcids. -/
def string_max (s t : String) : String :=
  if string_lt s t then t else s

/-- Scenario for the retention claims: both archives carry the same tag list
and no reading progress, neither is categorised. -/
def retention_env : DedupEnv :=
  ⟨fun _ => ⟨[("language:english")], 0⟩, []⟩

/-- Vector-store state for C3: "aaaa" has 5 favourites, "bbbb" has 3. -/
def c3_db : DBState :=
  ⟨[], [], [], [⟨("aaaa"), 1, 5, NhArchiveLanguage.ENGLISH⟩,
               ⟨("bbbb"), 2, 3, NhArchiveLanguage.ENGLISH⟩]⟩

/-- C3: get_keep_reasons is NOT argument-order symmetric.  With the same
stored state ("aaaa" has 5 favourites, "bbbb" has 3, identical tags), the
higher-favourite reason goes to whichever archive is passed FIRST, because
the source overwrites favorites_2 with 0 (nhdd.py:1276); hence the result of
get_keep_reasons(X, Y) is not the exchanged result of get_keep_reasons(Y, X). -/
theorem C3_keep_reasons_not_symmetric :
    KeepReasonAndScoreEnum.HAS_HIGHER_FAVORITE_COUNT ∈
      (get_keep_reasons retention_env c3_db ("aaaa") ("bbbb")).1 ∧
    KeepReasonAndScoreEnum.HAS_HIGHER_FAVORITE_COUNT ∈
      (get_keep_reasons retention_env c3_db ("bbbb") ("aaaa")).1 ∧
    decide (KeepReasonAndScoreEnum.HAS_HIGHER_FAVORITE_COUNT ∈
      (get_keep_reasons retention_env c3_db ("aaaa") ("bbbb")).2) = false ∧
    decide (get_keep_reasons retention_env c3_db ("aaaa") ("bbbb") =
       ((get_keep_reasons retention_env c3_db ("bbbb") ("aaaa")).2,
        (get_keep_reasons retention_env c3_db ("bbbb") ("aaaa")).1)) = false := by
  decide

/-- C4 (corrected): compute_subarchives keeps the pair member with the
strictly higher computed total, and on equal totals keeps the
lexicographically LARGEST arcid: in the tie branch the source `pass`es (keeps
keep_current False, i.e. replaces the current maximum) exactly when the
current maximum is the smallest of the pair. -/
theorem C4_retention_score_then_largest (env : DedupEnv) (db : DBState)
    (c o : String) :
    (keep_score (get_keep_reasons env db c o).1 > keep_score (get_keep_reasons env db c o).2 →
      rubric_winner env db c o = c) ∧
    (keep_score (get_keep_reasons env db c o).1 < keep_score (get_keep_reasons env db c o).2 →
      rubric_winner env db c o = o) ∧
    (keep_score (get_keep_reasons env db c o).1 = keep_score (get_keep_reasons env db c o).2 →
      rubric_winner env db c o = string_max c o) := by
  refine ⟨?_, ?_, ?_⟩ <;> intro h
  · simp [rubric_winner, rubric_keep_current, h]
  · have h1 : ¬ keep_score (get_keep_reasons env db c o).1 >
        keep_score (get_keep_reasons env db c o).2 := by omega
    simp [rubric_winner, rubric_keep_current, h, h1]
  · have h1 : ¬ keep_score (get_keep_reasons env db c o).1 >
        keep_score (get_keep_reasons env db c o).2 := by omega
    have h2 : ¬ keep_score (get_keep_reasons env db c o).1 <
        keep_score (get_keep_reasons env db c o).2 := by omega
    cases hlt : string_lt o c with
    | true =>
      have hne : ¬ (c = o) := fun heq => by
        rw [heq, string_lt_irrefl] at hlt
        cases hlt
      have hco : string_lt c o = false := string_lt_asymm hlt
      simp [rubric_winner, rubric_keep_current, string_max, h1, h2, hlt, hne, hco]
    | false =>
      cases hlt2 : string_lt c o with
      | true =>
        simp [rubric_winner, rubric_keep_current, string_max, h1, h2, hlt, hlt2]
      | false =>
        have heq : c = o := string_lt_conn hlt2 hlt
        simp [rubric_winner, rubric_keep_current, string_max, h1, h2, hlt, hlt2, heq]

/-- Vector-store state for C4: no favourites recorded (both counts read 0). -/
def c4_db : DBState :=
  ⟨[], [], [], [⟨("aaaa"), 1, 0, NhArchiveLanguage.ENGLISH⟩,
               ⟨("bbbb"), 2, 0, NhArchiveLanguage.ENGLISH⟩,
               ⟨("cccc"), 3, 0, NhArchiveLanguage.ENGLISH⟩,
               ⟨("dddd"), 4, 0, NhArchiveLanguage.ENGLISH⟩]⟩

/-- C4 counterexample: for "aaaa" and "bbbb" with identical tags, identical
favourites and no categorisation, the rubric keeps "bbbb" — the
lexicographically LARGEST arcid — whichever of the two is the current
maximum; the claim says the winner is "aaaa". -/
theorem C4_counterexample :
    rubric_winner retention_env c4_db ("aaaa") ("bbbb") = "bbbb" ∧
    rubric_winner retention_env c4_db ("bbbb") ("aaaa") = "bbbb" := by
  decide

/-- C4 witness: "cccc" and "dddd" with identical metadata tie on score, and
the winner is the lexicographically larger "dddd". -/
theorem C4_witness :
    keep_score (get_keep_reasons retention_env c4_db ("cccc") ("dddd")).1 =
      keep_score (get_keep_reasons retention_env c4_db ("cccc") ("dddd")).2 ∧
    rubric_winner retention_env c4_db ("cccc") ("dddd") =
      string_max ("cccc") ("dddd") :=
  ⟨by decide,
   (C4_retention_score_then_largest retention_env c4_db ("cccc") ("dddd")).2.2 (by decide)⟩

/-! Expired-task query of the relational job store
(src/satellite_server/service/database.py:277-288). -/

/-- A row of metadata_plugin_task: (arcid, source, namespace, status,
last_updated, num_failures).  The status column stores the integer value of
MetadataPluginTaskStatus (models.py:39-53); last_updated is a REAL timestamp,
idealised as a rational. -/
structure MetadataPluginTaskRow where
  arcid : String
  source : String
  nspace : String
  status : ℕ
  last_updated : ℚ
  num_failures : ℕ
deriving DecidableEq

/-- MetadataPluginTaskStatus.NOT_FOUND.value (models.py:50). -/
def NOT_FOUND_value : ℕ := 1

/-- get_metadata_plugin_task_expired (database.py:277-288): rows whose status
is NOT_FOUND and whose backoff window has expired, with the STRICT comparison
last_updated + 86400 * power(2, num_failures) < now. -/
def get_metadata_plugin_task_expired (rows : List MetadataPluginTaskRow)
    (now : ℚ) : List MetadataPluginTaskRow :=
  rows.filter (fun r => r.status == NOT_FOUND_value &&
    decide (r.last_updated + 86400 * 2 ^ r.num_failures < now))

/-- C8 (corrected): a NOT_FOUND row is withheld by the expired query for every
now ≤ last_updated + 86400·2^num_failures, and returned for every strictly
larger now; at equality the row is NOT returned, because the query compares
with a strict less-than. -/
theorem C8_not_found_backoff (rows : List MetadataPluginTaskRow)
    (r : MetadataPluginTaskRow) (now : ℚ) (hmem : r ∈ rows)
    (hstatus : r.status = NOT_FOUND_value) :
    (now ≤ r.last_updated + 86400 * 2 ^ r.num_failures →
      r ∉ get_metadata_plugin_task_expired rows now) ∧
    (r.last_updated + 86400 * 2 ^ r.num_failures < now →
      r ∈ get_metadata_plugin_task_expired rows now) := by
  constructor
  · intro hle hin
    rw [get_metadata_plugin_task_expired, List.mem_filter] at hin
    have hcond := hin.2
    simp [hstatus] at hcond
    exact absurd hcond (not_lt.mpr hle)
  · intro hlt
    rw [get_metadata_plugin_task_expired, List.mem_filter]
    exact ⟨hmem, by simp [hstatus, hlt]⟩

/-- A NOT_FOUND task row with last_updated = 0 and num_failures = 0. -/
def c8_row : MetadataPluginTaskRow :=
  ⟨("arc1"), ("https://nhentai.net/g/1"), ("nhentai"), 1, 0, 0⟩

/-- C8 counterexample: at now = last_updated + 86400·2^0 exactly, the claim
asserts the row is returned (now ≥ threshold), but the query returns nothing. -/
theorem C8_counterexample :
    ((0:ℚ) + 86400 * 2 ^ (0:ℕ) ≤ 86400) ∧
    get_metadata_plugin_task_expired [c8_row] 86400 = [] := by
  constructor
  · norm_num
  · rw [get_metadata_plugin_task_expired]
    norm_num [List.filter, c8_row]

/-- C8 witness: one second past the backoff threshold the row is returned. -/
theorem C8_witness : c8_row ∈ get_metadata_plugin_task_expired [c8_row] 86401 :=
  (C8_not_found_backoff [c8_row] c8_row 86401 (by simp) rfl).2 (by norm_num [c8_row])

/-! Do-not-download file update
(remove_duplicate_archives_nhentai_archivist, nhdd.py:1491-1505). -/

/-- The readlines/append step of remove_duplicate_archives_nhentai_archivist:
`lines` is readlines() output — every existing line KEEPS its trailing
newline — and `results` is the gathered list of
(archive id, error message or None, nhentai id or None) triples.  Returns the
list later passed to writelines() and new_add_count.  An id is appended bare
(writelines adds no newline) when it is not literally an element of the list. -/
def update_donotdownloadme (lines : List String)
    (results : List (String × Option String × Option String)) :
    List String × ℕ :=
  results.foldl (fun acc res =>
    match res.2.1 with
    | some _ => acc
    | none =>
      match res.2.2 with
      | some nhentai_id =>
        if nhentai_id ∈ acc.1 then acc
        else if nhentai_id = "" then acc
        else (acc.1 ++ [nhentai_id], acc.2 + 1)
      | none => acc) (lines, 0)

/-- writelines: plain concatenation, no separators added. -/
def writelines_content (lines : List String) : String :=
  String.join lines

/-- Gathered duplicate results for C9: two successfully resolved ids, one of
which (123) is already present in the file as the line "123\n". -/
def c9_results : List (String × Option String × Option String) :=
  [(("arc1"), none, some ("123")), (("arc2"), none, some ("456"))]

/-- C9: evaluating the do-not-download update with the file containing the
single line "123\n" and new duplicate ids 123 and 456.  The id 123, already
present in the file, is appended AGAIN (the membership test compares "123"
with "123\n" and fails), and the written content is "123\n123456": the
appended ids are not newline-terminated, so they merge into one corrupt line. -/
theorem C9_donotdownloadme_corrupted :
    update_donotdownloadme [("123\n")] c9_results =
      ([("123\n"), ("123"), ("456")], 2) ∧
    writelines_content [("123\n"), ("123"), ("456")] = "123\n123456" := by
  exact ⟨by decide, by decide⟩

/-! C10: first-write-wins inserts. -/

theorem find?_append_of_some {α : Type} (p : α → Bool) {l1 : List α}
    (l2 : List α) {r : α} (h : l1.find? p = some r) :
    (l1 ++ l2).find? p = some r := by
  rw [List.find?_append, h]; rfl

theorem insert_page_preserves {pages : List PageRow} {aid : String} {no : ℕ}
    {r : PageRow} (h : get_page pages aid no = some r) (a : String) (n : ℕ)
    (e : Vec) : get_page (insert_page pages a n e) aid no = some r := by
  rw [insert_page]
  split
  · exact h
  · exact find?_append_of_some _ _ h

theorem insert_pages_preserves {aid : String} {no : ℕ} {r : PageRow} :
    ∀ (items : List (String × ℕ × Vec)) (pages : List PageRow),
      get_page pages aid no = some r →
      get_page (insert_pages pages items) aid no = some r := by
  intro items
  induction items with
  | nil => intro pages h; exact h
  | cons it rest ih =>
    intro pages h
    exact ih _ (insert_page_preserves h it.1 it.2.1 it.2.2)

theorem insert_aej_preserves {aej : List AejRow} {k : String} {r : AejRow}
    (h : get_archive_embedding_job aej k = some r) (a : String) (p : ℕ)
    (s : ArchiveEmbeddingJobStatus) (msg : Option String) :
    get_archive_embedding_job (insert_archive_embedding_job aej a p s msg) k = some r := by
  rw [insert_archive_embedding_job]
  split
  · exact h
  · exact find?_append_of_some _ _ h

theorem insert_aejs_preserves {k : String} {r : AejRow} :
    ∀ (items : List (String × ℕ × ArchiveEmbeddingJobStatus × Option String))
      (aej : List AejRow), get_archive_embedding_job aej k = some r →
      get_archive_embedding_job (insert_archive_embedding_jobs aej items) k = some r := by
  intro items
  induction items with
  | nil => intro aej h; exact h
  | cons it rest ih =>
    intro aej h
    exact ih _ (insert_aej_preserves h it.1 it.2.1 it.2.2.1 it.2.2.2)

/-- C10: every insert of the vector store — insert_archive_embedding_jobs,
insert_pages, insert_subarchive_map, insert_nhentai_archive — has
conflict-do-nothing semantics: whatever values are passed, a key that already
has a row keeps its stored row completely unchanged. -/
theorem C10_first_write_wins :
    (∀ (aej : List AejRow) items (k : String) (r : AejRow),
      get_archive_embedding_job aej k = some r →
      get_archive_embedding_job (insert_archive_embedding_jobs aej items) k = some r) ∧
    (∀ (pages : List PageRow) items (aid : String) (no : ℕ) (r : PageRow),
      get_page pages aid no = some r →
      get_page (insert_pages pages items) aid no = some r) ∧
    (∀ (m : List (String × String)) (aid leq k : String) (r : String × String),
      get_proper_subarchive m k = some r →
      get_proper_subarchive (insert_subarchive_map m aid leq) k = some r) ∧
    (∀ (nh : List NhRow) (aid : String) (nid fav : ℤ) (lang : NhArchiveLanguage)
      (k : String) (r : NhRow), nh.find? (fun x => x.archive_id == k) = some r →
      (insert_nhentai_archive nh aid nid fav lang).find? (fun x => x.archive_id == k) = some r) := by
  refine ⟨fun aej items k r h => insert_aejs_preserves items aej h,
          fun pages items aid no r h => insert_pages_preserves items pages h,
          fun m aid leq k r h => ?_, fun nh aid nid fav lang k r h => ?_⟩
  · rw [insert_subarchive_map]
    split
    · exact h
    · exact find?_append_of_some _ _ h
  · rw [insert_nhentai_archive]
    split
    · exact h
    · exact find?_append_of_some _ _ h

/-- C10 witness: concrete rows with keys already present survive a batch
insert, a page insert, a subarchive-map insert and an nhentai insert with new
values, completely unchanged. -/
theorem C10_witness :
    get_archive_embedding_job
      (insert_archive_embedding_jobs [⟨("aaaa"), 3, ArchiveEmbeddingJobStatus.PENDING, none⟩]
        [(("aaaa"), 9, ArchiveEmbeddingJobStatus.SUCCESS, none)]) ("aaaa") =
      some ⟨("aaaa"), 3, ArchiveEmbeddingJobStatus.PENDING, none⟩ ∧
    get_page (insert_pages [⟨("aaaa"), 1, [(1:ℝ)]⟩] [(("aaaa"), 1, [(2:ℝ)])]) ("aaaa") 1 =
      some ⟨("aaaa"), 1, [(1:ℝ)]⟩ ∧
    get_proper_subarchive
      (insert_subarchive_map [(("aaaa"), ("bbbb"))] ("aaaa") ("cccc")) ("aaaa") =
      some (("aaaa"), ("bbbb")) ∧
    (insert_nhentai_archive [⟨("aaaa"), 1, 5, NhArchiveLanguage.ENGLISH⟩]
      ("aaaa") 2 7 NhArchiveLanguage.JAPANESE).find?
      (fun x => x.archive_id == ("aaaa")) =
      some ⟨("aaaa"), 1, 5, NhArchiveLanguage.ENGLISH⟩ :=
  ⟨C10_first_write_wins.1 _ _ _ _ rfl,
   C10_first_write_wins.2.1 _ _ _ _ _ rfl,
   C10_first_write_wins.2.2.1 _ _ _ _ _ rfl,
   C10_first_write_wins.2.2.2 _ _ _ _ _ _ _ rfl⟩

/-! Embedding-ingestion resumability (create_pages_from_arcid,
nhdd.py:884-1006), on the non-dry-run path with no connection or OS errors. -/

/-- create_pages_from_arcid (nhdd.py:918-987) as a state transition.
`extracted` maps an archive id to the ordered page embeddings produced by
downloading the archive, extracting its images sorted lexicographically and
batch-embedding them; it is consulted only on the download path.  Returns the
new state, the response status and whether the archive was downloaded. -/
def create_pages_from_arcid (st : DBState) (extracted : String → List Vec)
    (archive_id : String) : DBState × ArchiveEmbeddingJobStatus × Bool :=
  match get_archive_embedding_job st.aej archive_id with
  | none => (st, ArchiveEmbeddingJobStatus.NOT_FOUND, false)
  | some job_info =>
    let pages := get_count_pages_by_archive_id st.pages archive_id
    if pages = job_info.pages then
      (st.withAej (update_archive_embedding_job st.aej archive_id
          ArchiveEmbeddingJobStatus.SKIPPED none),
       ArchiveEmbeddingJobStatus.SKIPPED, false)
    else
      let st1 := if 0 < pages then
          st.withPages (delete_page_by_archive_id st.pages archive_id) else st
      let page_items := (extracted archive_id).enum.map
          (fun p => (archive_id, p.1 + 1, p.2))
      let st2 := st1.withPages (insert_pages st1.pages page_items)
      (st2.withAej (update_archive_embedding_job st2.aej archive_id
          ArchiveEmbeddingJobStatus.SUCCESS none),
       ArchiveEmbeddingJobStatus.SUCCESS, true)

theorem filter_delete_self (pages : List PageRow) (aid : String) :
    (delete_page_by_archive_id pages aid).filter
      (fun p => p.archive_id == aid) = [] := by
  rw [List.filter_eq_nil_iff]
  intro p hp
  rw [delete_page_by_archive_id, List.mem_filter] at hp
  simpa using hp.2

theorem insert_pages_filter_eq (aid : String) :
    ∀ (items : List (String × ℕ × Vec)) (base : List PageRow),
      (∀ it ∈ items, it.1 = aid) →
      (items.map (fun it => it.2.1)).Nodup →
      (∀ p ∈ base, p.archive_id = aid →
        p.page_no ∉ items.map (fun it => it.2.1)) →
      (insert_pages base items).filter (fun p => p.archive_id == aid) =
        base.filter (fun p => p.archive_id == aid) ++
          items.map (fun it => ⟨it.1, it.2.1, it.2.2⟩) := by
  intro items
  induction items with
  | nil => intro base _ _ _; simp [insert_pages]
  | cons it rest ih =>
    intro base h1 h2 h3
    have hitaid : it.1 = aid := h1 it (List.mem_cons_self it rest)
    have habsent : get_page base it.1 it.2.1 = none := by
      rw [get_page, List.find?_eq_none]
      intro p hp hcond
      rw [Bool.and_eq_true, beq_iff_eq, beq_iff_eq] at hcond
      have hnot := h3 p hp (hcond.1.trans hitaid)
      rw [List.map_cons] at hnot
      exact hnot (by rw [hcond.2]; exact List.mem_cons_self _ _)
    have hstep : insert_pages base (it :: rest) =
        insert_pages (base ++ [⟨it.1, it.2.1, it.2.2⟩]) rest := by
      simp [insert_pages, insert_page, habsent]
    have h1' : ∀ x ∈ rest, x.1 = aid :=
      fun x hx => h1 x (List.mem_cons_of_mem _ hx)
    have h2' : (rest.map (fun x => x.2.1)).Nodup := by
      rw [List.map_cons] at h2
      exact h2.of_cons
    have hhead : it.2.1 ∉ rest.map (fun x => x.2.1) := by
      rw [List.map_cons] at h2
      exact (List.nodup_cons.mp h2).1
    have h3' : ∀ p ∈ base ++ [⟨it.1, it.2.1, it.2.2⟩], p.archive_id = aid →
        p.page_no ∉ rest.map (fun x => x.2.1) := by
      intro p hp hpaid
      rcases List.mem_append.mp hp with hbase | hsing
      · have hfull := h3 p hbase hpaid
        rw [List.map_cons] at hfull
        exact fun hmem => hfull (List.mem_cons_of_mem _ hmem)
      · have hpeq : p = ⟨it.1, it.2.1, it.2.2⟩ := by simpa using hsing
        rw [hpeq]
        exact hhead
    rw [hstep, ih _ h1' h2' h3', List.filter_append]
    have hrow : List.filter (fun p => p.archive_id == aid)
        [(⟨it.1, it.2.1, it.2.2⟩ : PageRow)] = [⟨it.1, it.2.1, it.2.2⟩] := by
      simp [hitaid]
    rw [hrow, List.map_cons, List.append_assoc]
    simp

/-- C5: resumability of create_pages_from_arcid.  For an archive with an
embedding-job row: when the stored page count equals the job's pages field
the job is marked SKIPPED with no download and no other change; when the
stored count is positive and differs from pages, the archive is downloaded,
every existing page row of the archive is deleted, and afterwards the
archive's page rows are exactly the freshly extracted pages 1..N, with the
job marked SUCCESS. -/
theorem C5_create_pages_resumable (st : DBState) (extracted : String → List Vec)
    (archive_id : String) (job : AejRow)
    (hjob : get_archive_embedding_job st.aej archive_id = some job) :
    (get_count_pages_by_archive_id st.pages archive_id = job.pages →
      create_pages_from_arcid st extracted archive_id =
        (st.withAej (update_archive_embedding_job st.aej archive_id
            ArchiveEmbeddingJobStatus.SKIPPED none),
         ArchiveEmbeddingJobStatus.SKIPPED, false)) ∧
    (0 < get_count_pages_by_archive_id st.pages archive_id →
      get_count_pages_by_archive_id st.pages archive_id ≠ job.pages →
      (create_pages_from_arcid st extracted archive_id).2.1 =
          ArchiveEmbeddingJobStatus.SUCCESS ∧
      (create_pages_from_arcid st extracted archive_id).2.2 = true ∧
      (create_pages_from_arcid st extracted archive_id).1.pages.filter
          (fun p => p.archive_id == archive_id) =
        (extracted archive_id).enum.map
          (fun p => (⟨archive_id, p.1 + 1, p.2⟩ : PageRow))) := by
  constructor
  · intro hcount
    rw [create_pages_from_arcid, hjob]
    simp [hcount]
  · intro hpos hne
    rw [create_pages_from_arcid, hjob]
    simp only [if_neg hne, if_pos hpos, DBState.withPages, DBState.withAej]
    refine ⟨trivial, trivial, ?_⟩
    have hdel : (delete_page_by_archive_id st.pages archive_id).filter
        (fun p => p.archive_id == archive_id) = [] :=
      filter_delete_self st.pages archive_id
    have hnums : (((extracted archive_id).enum.map
        (fun p : ℕ × Vec => (archive_id, p.1 + 1, p.2))).map
          (fun it => it.2.1)).Nodup := by
      rw [List.map_map]
      have hsplit : ((fun it : String × ℕ × Vec => it.2.1) ∘
          (fun p : ℕ × Vec => (archive_id, p.1 + 1, p.2))) =
          ((fun n => n + 1) ∘ Prod.fst) := rfl
      rw [hsplit, ← List.map_map, List.enum_map_fst]
      exact (List.nodup_range _).map (fun a b => by omega)
    have hkeys : ∀ it ∈ (extracted archive_id).enum.map
        (fun p : ℕ × Vec => (archive_id, p.1 + 1, p.2)), it.1 = archive_id := by
      intro it hit
      rcases List.mem_map.mp hit with ⟨p, _, hpeq⟩
      rw [← hpeq]
    have hdisj : ∀ p ∈ delete_page_by_archive_id st.pages archive_id,
        p.archive_id = archive_id →
        p.page_no ∉ (((extracted archive_id).enum.map
          (fun p : ℕ × Vec => (archive_id, p.1 + 1, p.2))).map
            (fun it => it.2.1)) := by
      intro p hp hpaid
      rw [delete_page_by_archive_id, List.mem_filter] at hp
      rw [hpaid] at hp
      simp at hp
    rw [insert_pages_filter_eq archive_id _ _ hkeys hnums hdisj, hdel,
      List.nil_append, List.map_map]
    rfl

/-- Embedding oracle for the C5 witness: extraction yields two pages. -/
def c5_extracted : String → List Vec := fun _ => [[(1:ℝ)], [(2:ℝ)]]

/-- State whose stored page count (1) already equals the job's pages field. -/
def c5_skip_db : DBState :=
  ⟨[⟨("abcd"), 1, ArchiveEmbeddingJobStatus.PENDING, none⟩],
   [⟨("abcd"), 1, [(1:ℝ)]⟩], [], []⟩

/-- State with a partial ingest: one stored page against a two-page job. -/
def c5_redo_db : DBState :=
  ⟨[⟨("abcd"), 2, ArchiveEmbeddingJobStatus.PENDING, none⟩],
   [⟨("abcd"), 1, [(1:ℝ)]⟩], [], []⟩

/-- C5 witness: the SKIPPED branch and the delete-and-reingest branch
evaluated at concrete states. -/
theorem C5_witness :
    create_pages_from_arcid c5_skip_db c5_extracted ("abcd") =
      (c5_skip_db.withAej (update_archive_embedding_job c5_skip_db.aej ("abcd")
          ArchiveEmbeddingJobStatus.SKIPPED none),
       ArchiveEmbeddingJobStatus.SKIPPED, false) ∧
    ((create_pages_from_arcid c5_redo_db c5_extracted ("abcd")).2.1 =
        ArchiveEmbeddingJobStatus.SUCCESS ∧
     (create_pages_from_arcid c5_redo_db c5_extracted ("abcd")).2.2 = true ∧
     (create_pages_from_arcid c5_redo_db c5_extracted ("abcd")).1.pages.filter
        (fun p => p.archive_id == ("abcd")) =
      (c5_extracted ("abcd")).enum.map
        (fun p => (⟨("abcd"), p.1 + 1, p.2⟩ : PageRow))) :=
  ⟨(C5_create_pages_resumable c5_skip_db c5_extracted ("abcd")
      ⟨("abcd"), 1, ArchiveEmbeddingJobStatus.PENDING, none⟩ rfl).1 rfl,
   (C5_create_pages_resumable c5_redo_db c5_extracted ("abcd")
      ⟨("abcd"), 2, ArchiveEmbeddingJobStatus.PENDING, none⟩ rfl).2
      (by decide) (by decide)⟩

/-! The subarchive-computation engine (compute_subarchives,
nhdd.py:1325-1430). -/

/-- First occurrences of a list, in order: SELECT DISTINCT over the scan
order of the underlying rows. -/
def distinct_keep_first (l : List String) : List String :=
  l.foldl (fun acc x => if x ∈ acc then acc else acc ++ [x]) []

/-- get_arcids_by_page_similar_to_first_page_2 (nhdd.py:770-797): ids of
archives owning a page within cosine distance < 1 - min_similarity of the
given archive's first page, inner-joined with nhentai_archive and optionally
restricted to the same language; the archive itself is excluded.  Result
order is the physical order of the page table. -/
noncomputable def get_arcids_by_page_similar_to_first_page_2 (db : DBState)
    (archive_id : String) (min_similarity : ℝ) (restrict_language : Bool) :
    List String :=
  let max_distance := 1 - min_similarity
  match db.pages.find? (fun p => p.archive_id == archive_id && p.page_no == 1),
        db.nhentai.find? (fun r => r.archive_id == archive_id) with
  | some p1, some na1 =>
    distinct_keep_first ((db.pages.filter (fun p2 =>
      p2.archive_id != archive_id &&
      (db.nhentai.any (fun na2 => na2.archive_id == p2.archive_id &&
        (!restrict_language || decide (na2.language = na1.language)))) &&
      decide (cosine_distance p1.embedding p2.embedding < max_distance))).map
        (fun p2 => p2.archive_id))
  | _, _ => []

/-- get_archives_not_in_subarchive_map (nhdd.py:799-829): ids from
nhentai_archive whose embedding job is SKIPPED or SUCCESS and which own no
subarchive_map row yet, optionally restricted to one language; result order
is the physical order of nhentai_archive. -/
def get_archives_not_in_subarchive_map (db : DBState)
    (language : Option NhArchiveLanguage) : List String :=
  (db.nhentai.filter (fun na =>
    (db.aej.any (fun j => j.archive_id == na.archive_id &&
      (decide (j.status = ArchiveEmbeddingJobStatus.SKIPPED) ||
       decide (j.status = ArchiveEmbeddingJobStatus.SUCCESS)))) &&
    (get_proper_subarchive db.subarchive_map na.archive_id).isNone &&
    (match language with
     | some l => decide (na.language = l)
     | none => true))).map (fun na => na.archive_id)

/-- is_subarchive_of (nhdd.py:1221-1238): is_subsequence over the stored
page-ordered embeddings of the two archives. -/
noncomputable def is_subarchive_of (db : DBState)
    (target_arcid source_arcid : String) (min_similarity : ℝ) : Bool × Bool :=
  is_subsequence (get_embeddings_by_archive_id db.pages target_arcid)
    (get_embeddings_by_archive_id db.pages source_arcid) min_similarity

/-- One iteration of the peer loop of _process_archive_id
(nhdd.py:1366-1406): given the current maximum and the next candidate,
returns the updated state and current maximum.  A candidate that already
owns a mapping is first replaced by its stored leq value (nhdd.py:1367-1369);
keep_current (repoint the peer under the current maximum) fires when the peer
is a proper subsequence of the current maximum or wins the retention rubric;
the reversed proper case and the lost rubric insert (curr_max, peer) and make
the peer the new maximum; incomparable peers change nothing. -/
noncomputable def process_peer (env : DedupEnv) (τ : ℝ) (st : DBState)
    (curr_max_arcid raw_peer : String) : DBState × String :=
  let peer := match get_proper_subarchive st.subarchive_map raw_peer with
              | some m => m.2
              | none => raw_peer
  let sub := is_subarchive_of st curr_max_arcid peer τ
  let sup := is_subarchive_of st peer curr_max_arcid τ
  if sub.2 then
    (st.withMap (insert_subarchive_map st.subarchive_map curr_max_arcid peer), peer)
  else if sup.2 then
    (st.withMap (repoint_to_max st.subarchive_map peer curr_max_arcid), curr_max_arcid)
  else if sub.1 && sup.1 then
    if rubric_keep_current env st curr_max_arcid peer then
      (st.withMap (repoint_to_max st.subarchive_map peer curr_max_arcid), curr_max_arcid)
    else
      (st.withMap (insert_subarchive_map st.subarchive_map curr_max_arcid peer), peer)
  else (st, curr_max_arcid)

/-- _process_archive_id (nhdd.py:1356-1411): skip an archive that is already
mapped, otherwise fold the peer loop over the similar-first-page candidates
and insert the self row when the archive remained its own maximum. -/
noncomputable def process_archive_id (env : DedupEnv) (τ : ℝ)
    (restrict_language : Bool) (st : DBState) (archive_id : String) : DBState :=
  match get_proper_subarchive st.subarchive_map archive_id with
  | some _ => st
  | none =>
    let peers := get_arcids_by_page_similar_to_first_page_2 st archive_id τ
        restrict_language
    let res := peers.foldl (fun acc p => process_peer env τ acc.1 acc.2 p)
        (st, archive_id)
    if archive_id = res.2 then
      res.1.withMap (insert_subarchive_map res.1.subarchive_map archive_id archive_id)
    else res.1

/-- One pass of the while-loop of __compute_subarchives (nhdd.py:1348-1414):
process every archive returned by the candidate query. -/
noncomputable def compute_subarchives_pass (env : DedupEnv) (τ : ℝ)
    (language : Option NhArchiveLanguage) (st : DBState) : DBState :=
  (get_archives_not_in_subarchive_map st language).foldl
    (process_archive_id env τ language.isSome) st

/-- The while-loop of __compute_subarchives: repeat passes until the
candidate query returns nothing.  `fuel` bounds the number of passes; the
loop has quiesced once the query comes back empty, which every verified run
reaches within its fuel. -/
noncomputable def compute_subarchives_loop (env : DedupEnv) (τ : ℝ)
    (language : Option NhArchiveLanguage) : ℕ → DBState → DBState
  | 0, st => st
  | fuel + 1, st =>
    if (get_archives_not_in_subarchive_map st language).isEmpty then st
    else compute_subarchives_loop env τ language fuel
      (compute_subarchives_pass env τ language st)

/-- compute_subarchives (nhdd.py:1325-1430): with separate_languages (the
default) the engine runs once per language in enum order, otherwise once
without a language restriction. -/
noncomputable def compute_subarchives (env : DedupEnv) (τ : ℝ) (fuel : ℕ)
    (separate_languages : Bool) (st : DBState) : DBState :=
  if separate_languages then
    nh_archive_language_list.foldl
      (fun s l => compute_subarchives_loop env τ (some l) fuel s) st
  else compute_subarchives_loop env τ none fuel st

/-- Follow the leq mapping k steps from an archive id (an id owning no row
stays put). -/
def iterate_leq (m : List (String × String)) : ℕ → String → String
  | 0, a => a
  | k + 1, a =>
    match get_proper_subarchive m a with
    | some r => iterate_leq m k r.2
    | none => a

/-- An archive id whose stored row is the self-pointer (A, A): a root. -/
def is_self_pointing (m : List (String × String)) (a : String) : Bool :=
  match get_proper_subarchive m a with
  | some r => r.2 == r.1
  | none => false

/-! Concrete orthonormal page embeddings for the run scenarios. -/

def e1v : Vec := [(1:ℝ), 0, 0]

def e2v : Vec := [(0:ℝ), 1, 0]

def e3v : Vec := [(0:ℝ), 0, 1]

theorem cos_e1_e1 : cosine_similarity e1v e1v = 1 :=
  cosine_similarity_self (by norm_num [np_dot, e1v])

theorem cos_e2_e2 : cosine_similarity e2v e2v = 1 :=
  cosine_similarity_self (by norm_num [np_dot, e2v])

theorem cos_e1_e2 : cosine_similarity e1v e2v = 0 :=
  cosine_similarity_orth (by norm_num [np_dot, e1v, e2v])

theorem cos_e2_e1 : cosine_similarity e2v e1v = 0 :=
  cosine_similarity_orth (by norm_num [np_dot, e1v, e2v])

theorem dist_e1_e1_lt : decide (cosine_distance e1v e1v < 1 - 0.95) = true :=
  decide_eq_true (by rw [cosine_distance, cos_e1_e1]; norm_num)

theorem dist_e1_e2_not_lt : decide (cosine_distance e1v e2v < 1 - 0.95) = false :=
  decide_eq_false (by rw [cosine_distance, cos_e1_e2]; norm_num)

theorem subseq_e12_e12 : is_subsequence [e1v, e2v] [e1v, e2v] 0.95 = (true, false) := by
  have h1 : cosine_similarity e1v e1v > 0.95 := by rw [cos_e1_e1]; norm_num
  have h2 : cosine_similarity e2v e2v > 0.95 := by rw [cos_e2_e2]; norm_num
  simp [is_subsequence, isSubseqGo, h1, h2]

theorem subseq_e1_e12 : is_subsequence [e1v] [e1v, e2v] 0.95 = (true, true) := by
  have h1 : cosine_similarity e1v e1v > 0.95 := by rw [cos_e1_e1]; norm_num
  simp [is_subsequence, isSubseqGo, h1]

theorem subseq_e12_e1 : is_subsequence [e1v, e2v] [e1v] 0.95 = (false, false) := by
  simp [is_subsequence]

theorem subseq_e12_e123 : is_subsequence [e1v, e2v] [e1v, e2v, e3v] 0.95 = (true, true) := by
  have h1 : cosine_similarity e1v e1v > 0.95 := by rw [cos_e1_e1]; norm_num
  have h2 : cosine_similarity e2v e2v > 0.95 := by rw [cos_e2_e2]; norm_num
  simp [is_subsequence, isSubseqGo, h1, h2]

theorem subseq_e123_e12 : is_subsequence [e1v, e2v, e3v] [e1v, e2v] 0.95 = (false, false) := by
  simp [is_subsequence]

/-! C2 run scenario: three English archives with fully ingested embeddings,
"xxxx" = [e1], "aaaa" = [e1, e2], "bbbb" = [e1, e2]; every favourite count is
the unknown marker -1, tags are identical, nothing is categorised. -/

def c2_pages : List PageRow :=
  [⟨("xxxx"), 1, e1v⟩, ⟨("aaaa"), 1, e1v⟩, ⟨("aaaa"), 2, e2v⟩,
   ⟨("bbbb"), 1, e1v⟩, ⟨("bbbb"), 2, e2v⟩]

def c2_nhentai : List NhRow :=
  [⟨("aaaa"), 1, -1, NhArchiveLanguage.ENGLISH⟩,
   ⟨("bbbb"), 2, -1, NhArchiveLanguage.ENGLISH⟩,
   ⟨("xxxx"), 3, -1, NhArchiveLanguage.ENGLISH⟩]

def c2_aej : List AejRow :=
  [⟨("aaaa"), 2, ArchiveEmbeddingJobStatus.SUCCESS, none⟩,
   ⟨("bbbb"), 2, ArchiveEmbeddingJobStatus.SUCCESS, none⟩,
   ⟨("xxxx"), 1, ArchiveEmbeddingJobStatus.SUCCESS, none⟩]

/-- The scenario state, parametric in the subarchive_map contents (the only
table the run mutates). -/
def c2_state (m : List (String × String)) : DBState :=
  ⟨c2_aej, c2_pages, m, c2_nhentai⟩

def c2_m1 : List (String × String) := [(("xxxx"), ("aaaa"))]

def c2_m2 : List (String × String) :=
  [(("xxxx"), ("aaaa")), (("aaaa"), ("bbbb"))]

def c2_m3 : List (String × String) :=
  [(("xxxx"), ("aaaa")), (("aaaa"), ("bbbb")), (("bbbb"), ("aaaa"))]

theorem c2_emb_aaaa : get_embeddings_by_archive_id c2_pages ("aaaa") = [e1v, e2v] := rfl

theorem c2_emb_bbbb : get_embeddings_by_archive_id c2_pages ("bbbb") = [e1v, e2v] := rfl

theorem c2_emb_xxxx : get_embeddings_by_archive_id c2_pages ("xxxx") = [e1v] := rfl

theorem c2_sub_aaaa_xxxx (m : List (String × String)) :
    is_subarchive_of (c2_state m) ("aaaa") ("xxxx") 0.95 = (false, false) := by
  simp only [is_subarchive_of, c2_state, c2_emb_aaaa, c2_emb_xxxx, subseq_e12_e1]

theorem c2_sub_xxxx_aaaa (m : List (String × String)) :
    is_subarchive_of (c2_state m) ("xxxx") ("aaaa") 0.95 = (true, true) := by
  simp only [is_subarchive_of, c2_state, c2_emb_aaaa, c2_emb_xxxx, subseq_e1_e12]

theorem c2_sub_aaaa_bbbb (m : List (String × String)) :
    is_subarchive_of (c2_state m) ("aaaa") ("bbbb") 0.95 = (true, false) := by
  simp only [is_subarchive_of, c2_state, c2_emb_aaaa, c2_emb_bbbb, subseq_e12_e12]

theorem c2_sub_bbbb_aaaa (m : List (String × String)) :
    is_subarchive_of (c2_state m) ("bbbb") ("aaaa") 0.95 = (true, false) := by
  simp only [is_subarchive_of, c2_state, c2_emb_aaaa, c2_emb_bbbb, subseq_e12_e12]

theorem c2_rubric_aaaa_bbbb (m : List (String × String)) :
    rubric_keep_current retention_env (c2_state m) ("aaaa") ("bbbb") = false := rfl

theorem c2_rubric_bbbb_aaaa (m : List (String × String)) :
    rubric_keep_current retention_env (c2_state m) ("bbbb") ("aaaa") = false := rfl

theorem c2_peers_aaaa (m : List (String × String)) :
    get_arcids_by_page_similar_to_first_page_2 (c2_state m) ("aaaa") 0.95 true =
      [("xxxx"), ("bbbb")] := by
  simp [get_arcids_by_page_similar_to_first_page_2, c2_state, c2_pages, c2_nhentai,
    dist_e1_e1_lt, dist_e1_e2_not_lt, distinct_keep_first]

theorem c2_peers_bbbb (m : List (String × String)) :
    get_arcids_by_page_similar_to_first_page_2 (c2_state m) ("bbbb") 0.95 true =
      [("xxxx"), ("aaaa")] := by
  simp [get_arcids_by_page_similar_to_first_page_2, c2_state, c2_pages, c2_nhentai,
    dist_e1_e1_lt, dist_e1_e2_not_lt, distinct_keep_first]

theorem c2_state_map (m : List (String × String)) :
    (c2_state m).subarchive_map = m := rfl

theorem c2_state_withMap (m l : List (String × String)) :
    (c2_state m).withMap l = c2_state l := rfl

theorem c2_step_a1 : process_peer retention_env 0.95 (c2_state []) ("aaaa") ("xxxx") =
    (c2_state c2_m1, ("aaaa")) := by
  simp [process_peer, c2_state_map, c2_state_withMap, get_proper_subarchive,
    c2_sub_aaaa_xxxx, c2_sub_xxxx_aaaa, repoint_to_max, insert_subarchive_map,
    get_subarchive_map_children_by_archive_id, c2_m1]

theorem c2_step_a2 : process_peer retention_env 0.95 (c2_state c2_m1) ("aaaa") ("bbbb") =
    (c2_state c2_m2, ("bbbb")) := by
  simp [process_peer, c2_state_map, c2_state_withMap, get_proper_subarchive,
    c2_sub_aaaa_bbbb, c2_sub_bbbb_aaaa, c2_rubric_aaaa_bbbb,
    insert_subarchive_map, c2_m1, c2_m2]

theorem c2_step_b1 : process_peer retention_env 0.95 (c2_state c2_m2) ("bbbb") ("xxxx") =
    (c2_state c2_m3, ("aaaa")) := by
  simp [process_peer, c2_state_map, c2_state_withMap, get_proper_subarchive,
    c2_sub_bbbb_aaaa, c2_sub_aaaa_bbbb, c2_rubric_bbbb_aaaa,
    insert_subarchive_map, c2_m2, c2_m3]

theorem c2_step_b2 : process_peer retention_env 0.95 (c2_state c2_m3) ("aaaa") ("aaaa") =
    (c2_state c2_m3, ("bbbb")) := by
  simp [process_peer, c2_state_map, c2_state_withMap, get_proper_subarchive,
    c2_sub_aaaa_bbbb, c2_sub_bbbb_aaaa, c2_rubric_aaaa_bbbb,
    insert_subarchive_map, c2_m3]

theorem c2_proc_aaaa :
    process_archive_id retention_env 0.95 true (c2_state []) ("aaaa") =
      c2_state c2_m2 := by
  simp [process_archive_id, c2_state_map, get_proper_subarchive, c2_peers_aaaa,
    c2_step_a1, c2_step_a2, c2_state_withMap]

theorem c2_lookup_m2_bbbb : get_proper_subarchive c2_m2 ("bbbb") = none := rfl

theorem c2_insert_m3_bbbb_self :
    insert_subarchive_map c2_m3 ("bbbb") ("bbbb") = c2_m3 := rfl

theorem c2_proc_bbbb :
    process_archive_id retention_env 0.95 true (c2_state c2_m2) ("bbbb") =
      c2_state c2_m3 := by
  simp [process_archive_id, c2_state_map, c2_lookup_m2_bbbb, c2_peers_bbbb,
    c2_step_b1, c2_step_b2, c2_state_withMap, c2_insert_m3_bbbb_self]

theorem c2_proc_xxxx :
    process_archive_id retention_env 0.95 true (c2_state c2_m3) ("xxxx") =
      c2_state c2_m3 := by
  simp [process_archive_id, c2_state_map, get_proper_subarchive, c2_m3]

theorem c2_query_start :
    get_archives_not_in_subarchive_map (c2_state [])
      (some NhArchiveLanguage.ENGLISH) = [("aaaa"), ("bbbb"), ("xxxx")] := rfl

theorem c2_query_end (lang : NhArchiveLanguage) :
    get_archives_not_in_subarchive_map (c2_state c2_m3) (some lang) = [] := by
  cases lang <;> rfl

theorem c2_pass1 :
    compute_subarchives_pass retention_env 0.95 (some NhArchiveLanguage.ENGLISH)
      (c2_state []) = c2_state c2_m3 := by
  simp [compute_subarchives_pass, c2_query_start, c2_proc_aaaa, c2_proc_bbbb,
    c2_proc_xxxx]

theorem c2_loop_en :
    compute_subarchives_loop retention_env 0.95 (some NhArchiveLanguage.ENGLISH)
      2 (c2_state []) = c2_state c2_m3 := by
  simp [compute_subarchives_loop, c2_query_start, c2_pass1, c2_query_end]

theorem c2_query_start_other (lang : NhArchiveLanguage)
    (h : lang ≠ NhArchiveLanguage.ENGLISH) :
    get_archives_not_in_subarchive_map (c2_state []) (some lang) = [] := by
  cases lang
  · exact absurd rfl h
  all_goals rfl

theorem c2_loop_done (lang : NhArchiveLanguage) :
    compute_subarchives_loop retention_env 0.95 (some lang) 2
      (c2_state c2_m3) = c2_state c2_m3 := by
  simp [compute_subarchives_loop, c2_query_end]

/-- C2: root uniqueness FAILS on the code.  Running compute_subarchives to
completion (the candidate query of every language comes back empty after two
passes) from an empty subarchive_map over three fully ingested archives
xxxx = [e1], aaaa = [e1,e2], bbbb = [e1,e2] with unknown favourites (-1)
produces the table [(xxxx,aaaa), (aaaa,bbbb), (bbbb,aaaa)]: the leq chain
from "aaaa" alternates between "aaaa" and "bbbb" and never reaches a
self-pointing row, in particular not within n = 3 hops.  The cycle arises
because the rubric awards the higher-favourite reason to the second argument
(favorites_2 is overwritten with 0 while favorites_1 = -1, nhdd.py:1276), so
each of the two equal archives loses while current, and the conflicting
inserts are all DO NOTHING. -/
theorem C2_root_uniqueness_fails :
    compute_subarchives retention_env 0.95 2 true (c2_state []) =
      c2_state c2_m3 ∧
    is_self_pointing c2_m3 (iterate_leq c2_m3 0 ("aaaa")) = false ∧
    is_self_pointing c2_m3 (iterate_leq c2_m3 1 ("aaaa")) = false ∧
    is_self_pointing c2_m3 (iterate_leq c2_m3 2 ("aaaa")) = false ∧
    is_self_pointing c2_m3 (iterate_leq c2_m3 3 ("aaaa")) = false := by
  refine ⟨?_, by decide, by decide, by decide, by decide⟩
  simp [compute_subarchives, nh_archive_language_list, c2_loop_en, c2_loop_done]

/-! C1 run scenario: a previous run left the root row (rrrr, rrrr) with the
depth-1 child (cccc, rrrr); the new archive aaaa = [e1, e2, e3] strictly
contains rrrr = [e1, e2] (cccc = [e1]). -/

def c1_pages : List PageRow :=
  [⟨("cccc"), 1, e1v⟩, ⟨("rrrr"), 1, e1v⟩, ⟨("rrrr"), 2, e2v⟩,
   ⟨("aaaa"), 1, e1v⟩, ⟨("aaaa"), 2, e2v⟩, ⟨("aaaa"), 3, e3v⟩]

def c1_nhentai : List NhRow :=
  [⟨("aaaa"), 1, -1, NhArchiveLanguage.ENGLISH⟩,
   ⟨("cccc"), 2, -1, NhArchiveLanguage.ENGLISH⟩,
   ⟨("rrrr"), 3, -1, NhArchiveLanguage.ENGLISH⟩]

def c1_aej : List AejRow :=
  [⟨("aaaa"), 3, ArchiveEmbeddingJobStatus.SUCCESS, none⟩,
   ⟨("cccc"), 1, ArchiveEmbeddingJobStatus.SUCCESS, none⟩,
   ⟨("rrrr"), 2, ArchiveEmbeddingJobStatus.SUCCESS, none⟩]

def c1_m0 : List (String × String) :=
  [(("rrrr"), ("rrrr")), (("cccc"), ("rrrr"))]

def c1_m1 : List (String × String) :=
  [(("rrrr"), ("rrrr")), (("cccc"), ("rrrr")), (("aaaa"), ("aaaa"))]

def c1_state (m : List (String × String)) : DBState :=
  ⟨c1_aej, c1_pages, m, c1_nhentai⟩

theorem c1_state_map (m : List (String × String)) :
    (c1_state m).subarchive_map = m := rfl

theorem c1_state_withMap (m l : List (String × String)) :
    (c1_state m).withMap l = c1_state l := rfl

theorem c1_emb_aaaa : get_embeddings_by_archive_id c1_pages ("aaaa") =
    [e1v, e2v, e3v] := rfl

theorem c1_emb_rrrr : get_embeddings_by_archive_id c1_pages ("rrrr") =
    [e1v, e2v] := rfl

theorem c1_sub_aaaa_rrrr (m : List (String × String)) :
    is_subarchive_of (c1_state m) ("aaaa") ("rrrr") 0.95 = (false, false) := by
  simp only [is_subarchive_of, c1_state, c1_emb_aaaa, c1_emb_rrrr, subseq_e123_e12]

theorem c1_sub_rrrr_aaaa (m : List (String × String)) :
    is_subarchive_of (c1_state m) ("rrrr") ("aaaa") 0.95 = (true, true) := by
  simp only [is_subarchive_of, c1_state, c1_emb_aaaa, c1_emb_rrrr, subseq_e12_e123]

theorem c1_peers_aaaa (m : List (String × String)) :
    get_arcids_by_page_similar_to_first_page_2 (c1_state m) ("aaaa") 0.95 true =
      [("cccc"), ("rrrr")] := by
  simp [get_arcids_by_page_similar_to_first_page_2, c1_state, c1_pages, c1_nhentai,
    dist_e1_e1_lt, dist_e1_e2_not_lt, distinct_keep_first]

theorem c1_lookup_cccc : get_proper_subarchive c1_m0 ("cccc") =
    some (("cccc"), ("rrrr")) := rfl

theorem c1_lookup_rrrr : get_proper_subarchive c1_m0 ("rrrr") =
    some (("rrrr"), ("rrrr")) := rfl

theorem c1_lookup_aaaa : get_proper_subarchive c1_m0 ("aaaa") = none := rfl

/-- The re-pointing step on the dominated root is a complete no-op: both the
root row and the child row already exist, and every insert is
ON CONFLICT DO NOTHING. -/
theorem c1_repoint_noop : repoint_to_max c1_m0 ("rrrr") ("aaaa") = c1_m0 := rfl

theorem c1_insert_self : insert_subarchive_map c1_m0 ("aaaa") ("aaaa") = c1_m1 := rfl

theorem c1_step_1 : process_peer retention_env 0.95 (c1_state c1_m0) ("aaaa") ("cccc") =
    (c1_state c1_m0, ("aaaa")) := by
  simp [process_peer, c1_state_map, c1_state_withMap, c1_lookup_cccc,
    c1_sub_aaaa_rrrr, c1_sub_rrrr_aaaa, c1_repoint_noop]

theorem c1_step_2 : process_peer retention_env 0.95 (c1_state c1_m0) ("aaaa") ("rrrr") =
    (c1_state c1_m0, ("aaaa")) := by
  simp [process_peer, c1_state_map, c1_state_withMap, c1_lookup_rrrr,
    c1_sub_aaaa_rrrr, c1_sub_rrrr_aaaa, c1_repoint_noop]

theorem c1_proc_aaaa :
    process_archive_id retention_env 0.95 true (c1_state c1_m0) ("aaaa") =
      c1_state c1_m1 := by
  simp [process_archive_id, c1_state_map, c1_lookup_aaaa, c1_peers_aaaa,
    c1_step_1, c1_step_2, c1_state_withMap, c1_insert_self]

theorem c1_query_start :
    get_archives_not_in_subarchive_map (c1_state c1_m0)
      (some NhArchiveLanguage.ENGLISH) = [("aaaa")] := rfl

theorem c1_query_end (lang : NhArchiveLanguage) :
    get_archives_not_in_subarchive_map (c1_state c1_m1) (some lang) = [] := by
  cases lang <;> rfl

theorem c1_loop_en :
    compute_subarchives_loop retention_env 0.95 (some NhArchiveLanguage.ENGLISH)
      2 (c1_state c1_m0) = c1_state c1_m1 := by
  simp [compute_subarchives_loop, c1_query_start, compute_subarchives_pass,
    c1_proc_aaaa, c1_query_end]

theorem c1_loop_done (lang : NhArchiveLanguage) :
    compute_subarchives_loop retention_env 0.95 (some lang) 2
      (c1_state c1_m1) = c1_state c1_m1 := by
  simp [compute_subarchives_loop, c1_query_end]

/-- C1: re-pointing on domination FAILS on the code.  With the root rrrr
holding its self row and child row (cccc, rrrr), a run of compute_subarchives
determines the new maximum aaaa which properly dominates rrrr; the
re-pointing step (insert the dominated root and each depth-1 child under the
new maximum) changes nothing, because insert_subarchive_map is
ON CONFLICT DO NOTHING and both rows already exist.  After the run the stored
mapping still has leq(rrrr) = rrrr and leq(cccc) = rrrr instead of aaaa. -/
theorem C1_repoint_on_domination_noop :
    repoint_to_max c1_m0 ("rrrr") ("aaaa") = c1_m0 ∧
    compute_subarchives retention_env 0.95 2 true (c1_state c1_m0) =
      c1_state c1_m1 ∧
    get_proper_subarchive c1_m1 ("rrrr") = some (("rrrr"), ("rrrr")) ∧
    get_proper_subarchive c1_m1 ("cccc") = some (("cccc"), ("rrrr")) := by
  refine ⟨rfl, ?_, rfl, rfl⟩
  simp [compute_subarchives, nh_archive_language_list, c1_loop_en, c1_loop_done]
